import Mathlib

set_option maxHeartbeats 1000000

/-!
Shallow embedding of the SSD1675 e-paper driver in src/src/main.rs.

Machine integers are modelled as Nat with explicit reductions: a u8 field
is reduced mod 256 and a u16 field mod 65536 at the point where the source
reads it out of the argument union.  The byte stream and the data/command
(DC) pin are modelled as a trace of events, so that the two-phase transfer
protocol of send_command is a statement about the order of trace events.
-/

/-- Axis along which the address counter increments (enum IncrementAxis). -/
inductive IncrementAxis
  | Horizontal
  | Vertical
deriving DecidableEq

/-- Data entry mode variants (enum DataEntryMode). -/
inductive DataEntryMode
  | DecrementXDecrementY
  | IncrementXDecrementY
  | DecrementXIncrementY
  | IncrementYIncrementX
deriving DecidableEq

/-- Temperature sensor selection (enum TemperatureSensor). -/
inductive TemperatureSensor
  | Internal
  | External
deriving DecidableEq

/-- RAM content option (enum RamOption). -/
inductive RamOption
  | Normal
  | Bypass
  | Invert
deriving DecidableEq

/-- Deep sleep mode variants (enum DeepSleepMode). -/
inductive DeepSleepMode
  | Normal
  | PreserveRAM
  | DiscardRAM
deriving DecidableEq

/-- The command enumeration (enum Command), one constructor per variant the
source declares; the commented-out datasheet commands are not variants in
the source and are not modelled. -/
inductive Command
  | DriverOutputControl
  | GateDrivingVoltage
  | SourceDrivingVoltage
  | BoosterEnable
  | GateScanStartPostion
  | DeepSleepMode
  | DataEntryMode
  | SoftReset
  | TemperatatSensorSelection
  | WriteTemperatureSensor
  | ReadTemperatureSensor
  | WriteExternalTemperatureSensor
  | UpdateDisplay
  | UpdateDisplayOption1
  | UpdateDisplayOption2
  | EnterVCOMSensing
  | VCOMSenseDuration
  | WriteVCOM
  | DummyLinePeriod
  | GateLineWidth
  | BorderWaveform
  | StartEndXPosition
  | StartEndYPosition
  | AutoWriteColorPattern
  | AutoWriteBlackPattern
  | XAddress
  | YAddress
  | AnalogBlockControl
  | DigitalBlockControl
  | WriteBlackData
  | WriteColorData
  | WriteLUT
deriving DecidableEq

/-- The argument union (union ComandData), one constructor per union field.
The source reads the union field matching the command under `unsafe`; the
embedding makes the read defined only when the supplied field matches. -/
inductive ComandData
  | driver_output_control (gates : Nat) (b : Nat)
  | gate_driving_voltage (v : Nat)
  | source_driving_voltage (a b c : Nat)
  | booster_enable (a b c d : Nat)
  | gate_scan_start_position (p : Nat)
  | deep_sleep_mode (m : DeepSleepMode)
  | data_entry_mode (m : DataEntryMode) (a : IncrementAxis)
  | temperature_sensor_selection (t : TemperatureSensor)
  | write_temperature_sensor (v : Nat)
  | read_temperature_sensor (v : Nat)
  | write_external_temperature_sensor (a b c : Nat)
  | update_display_option_1 (bw color : RamOption)
  | update_display_option_2 (v : Nat)
  | vcom_sense_duration (v : Nat)
  | write_vcom (v : Nat)
  | dummy_line_period (v : Nat)
  | gate_line_width (v : Nat)
  | border_wave_form (v : Nat)
  | start_end_x_position (s e : Nat)
  | start_end_y_position (s e : Nat)
  | auto_write_color_pattern (v : Nat)
  | auto_write_black_pattern (v : Nat)
  | x_address (v : Nat)
  | y_address (v : Nat)
  | analog_block_control (v : Nat)
  | digital_block_control (v : Nat)
  | write_black_data (bs : List Nat)
  | write_color_data (bs : List Nat)
  | write_lut (bs : List Nat)
deriving DecidableEq

/-- Decidable equality for Except results, used to evaluate the encoder on
concrete inputs. -/
instance {ε α : Type} [DecidableEq ε] [DecidableEq α] : DecidableEq (Except ε α) :=
  fun a b =>
    match a, b with
    | .ok x, .ok y =>
        if h : x = y then .isTrue (by rw [h])
        else .isFalse (by intro q; cases q; exact h rfl)
    | .error x, .error y =>
        if h : x = y then .isTrue (by rw [h])
        else .isFalse (by intro q; cases q; exact h rfl)
    | .ok _, .error _ => .isFalse (by intro q; cases q)
    | .error _, .ok _ => .isFalse (by intro q; cases q)

/-- Reduction of a Nat to a u8 value. -/
def u8 (v : Nat) : Nat := v % 256

/-- Reduction of a Nat to a u16 value. -/
def u16 (v : Nat) : Nat := v % 65536

/-- How send_command can fail in the embedding: the fall-through arm of the
source panics with an unimplemented-command message (modelled as
`unsupported`), and reading a union field that does not match the command
is undefined behaviour in the source (modelled as `dataMismatch`). -/
inductive EncodeError
  | unsupported
  | dataMismatch
deriving DecidableEq

/-- Encoding of the deep-sleep mode byte, the inner match of the
DeepSleepMode arm of send_command. -/
def DeepSleepMode.bits : DeepSleepMode → Nat
  | .Normal => 0b00
  | .PreserveRAM => 0b01
  | .DiscardRAM => 0b11

/-- Encoding of the data-entry direction code, the first inner match of the
DataEntryMode arm of send_command. -/
def DataEntryMode.bits : DataEntryMode → Nat
  | .DecrementXDecrementY => 0b00
  | .IncrementXDecrementY => 0b01
  | .DecrementXIncrementY => 0b10
  | .IncrementYIncrementX => 0b11

/-- Encoding of the increment-axis flag, the second inner match of the
DataEntryMode arm of send_command. -/
def IncrementAxis.bits : IncrementAxis → Nat
  | .Horizontal => 0b000
  | .Vertical => 0b100

/-- The big match inside Interface::send_command: from command and argument
data to (opcode byte, argument bytes).  A u16 field is split with
to_be_bytes into [upper, lower] and re-packed low byte first, exactly as
the source arms do. -/
def Command.encode : Command → ComandData → Except EncodeError (Nat × List Nat)
  | .DriverOutputControl, .driver_output_control g b =>
      .ok (0x01, [u16 g % 256, u16 g / 256, u8 b])
  | .GateDrivingVoltage, .gate_driving_voltage v => .ok (0x03, [u8 v])
  | .SourceDrivingVoltage, .source_driving_voltage a b c =>
      .ok (0x04, [u8 a, u8 b, u8 c])
  | .BoosterEnable, .booster_enable a b c d =>
      .ok (0x0C, [u8 a, u8 b, u8 c, u8 d])
  | .GateScanStartPostion, .gate_scan_start_position p =>
      .ok (0x0F, [u16 p % 256, u16 p / 256])
  | .DeepSleepMode, .deep_sleep_mode m => .ok (0x10, [m.bits])
  | .DataEntryMode, .data_entry_mode m a =>
      .ok (0x11, [Nat.lor a.bits m.bits])
  | .SoftReset, _ => .ok (0x12, [])
  | .UpdateDisplay, _ => .ok (0x20, [])
  | .UpdateDisplayOption2, .update_display_option_2 v => .ok (0x22, [u8 v])
  | .WriteVCOM, .vcom_sense_duration v => .ok (0x2C, [u8 v])
  | .DummyLinePeriod, .dummy_line_period v => .ok (0x3A, [u8 v])
  | .GateLineWidth, .gate_line_width v => .ok (0x3B, [u8 v])
  | .BorderWaveform, .border_wave_form v => .ok (0x3C, [u8 v])
  | .StartEndXPosition, .start_end_x_position s e => .ok (0x44, [u8 s, u8 e])
  | .StartEndYPosition, .start_end_y_position s e =>
      .ok (0x45, [u16 s % 256, u16 s / 256, u16 e % 256, u16 e / 256])
  | .XAddress, .x_address v => .ok (0x4E, [u8 v])
  | .YAddress, .y_address v => .ok (0x4F, [u8 v])
  | .AnalogBlockControl, .analog_block_control v => .ok (0x74, [u8 v])
  | .DigitalBlockControl, .digital_block_control v => .ok (0x7E, [u8 v])
  | .WriteBlackData, .write_black_data bs => .ok (0x24, bs)
  | .WriteColorData, .write_color_data bs => .ok (0x26, bs)
  | .WriteLUT, .write_lut bs => .ok (0x32, bs)
  | .TemperatatSensorSelection, _ => .error .unsupported
  | .WriteTemperatureSensor, _ => .error .unsupported
  | .ReadTemperatureSensor, _ => .error .unsupported
  | .WriteExternalTemperatureSensor, _ => .error .unsupported
  | .UpdateDisplayOption1, _ => .error .unsupported
  | .EnterVCOMSensing, _ => .error .unsupported
  | .VCOMSenseDuration, _ => .error .unsupported
  | .AutoWriteColorPattern, _ => .error .unsupported
  | .AutoWriteBlackPattern, _ => .error .unsupported
  | _, _ => .error .dataMismatch

example : Command.encode .GateScanStartPostion (.gate_scan_start_position 0x1234) =
    .ok (0x0F, [0x34, 0x12]) := by decide

example : Command.encode .DataEntryMode (.data_entry_mode .IncrementYIncrementX .Horizontal) =
    .ok (0x11, [0b011]) := by decide

/-- One observable event at the bus interface: a transition of the
data/command (DC) select pin, or one SPI write transfer. -/
inductive Event
  | dcLow
  | dcHigh
  | spiWrite (bytes : List Nat)
deriving DecidableEq

/-- Rust slice chunks: successive sub-slices of length n, the last possibly
shorter; the source only ever calls it with n = 4096 (a chunk size of 0
panics in Rust and is left degenerate here). -/
def chunks {α : Type} (n : Nat) (l : List α) : List (List α) :=
  match l with
  | [] => []
  | a :: rest =>
    if _hn : n = 0 then []
    else (a :: rest).take n :: chunks n ((a :: rest).drop n)
termination_by l.length
decreasing_by
  simp only [List.length_drop, List.length_cons]
  omega

theorem chunks_nil {α : Type} (n : Nat) : chunks n ([] : List α) = [] := by
  simp only [chunks]

theorem chunks_cons {α : Type} (n : Nat) (hn : n ≠ 0) (l : List α) (hl : l ≠ []) :
    chunks n l = l.take n :: chunks n (l.drop n) := by
  match l with
  | [] => exact absurd rfl hl
  | a :: rest => simp only [chunks]; simp [hn]

/-- Concatenating the chunks of a list gives the list back. -/
theorem chunks_flatten {α : Type} (n : Nat) (hn : n ≠ 0) (l : List α) :
    (chunks n l).flatten = l := by
  have H : ∀ (k : Nat) (m : List α), m.length = k → (chunks n m).flatten = m := by
    intro k
    induction k using Nat.strongRecOn with
    | _ k ih =>
      intro m hk
      by_cases hl : m = []
      · subst hl; simp [chunks_nil]
      · rw [chunks_cons n hn m hl]
        have hlen : (m.drop n).length < m.length := by
          have h1 : m.length ≠ 0 := fun hz => hl (List.eq_nil_of_length_eq_zero hz)
          simp only [List.length_drop]; omega
        rw [List.flatten_cons, ih (m.drop n).length (hk ▸ hlen) (m.drop n) rfl]
        exact List.take_append_drop n m
  exact H l.length l rfl

/-- Every chunk is at most n long. -/
theorem chunks_sizes {α : Type} (n : Nat) (l : List α) :
    ∀ s ∈ chunks n l, s.length ≤ n := by
  have H : ∀ (k : Nat) (m : List α), m.length = k → ∀ s ∈ chunks n m, s.length ≤ n := by
    intro k
    induction k using Nat.strongRecOn with
    | _ k ih =>
      intro m hk
      by_cases h : n = 0 ∨ m = []
      · rcases h with h | h
        · subst h; intro s hs
          match m with
          | [] => rw [chunks_nil] at hs; cases hs
          | a :: rest => simp only [chunks] at hs; simp at hs
        · subst h; rw [chunks_nil]; intro s hs; cases hs
      · push_neg at h
        rw [chunks_cons n h.1 m h.2]
        intro s hs
        rcases List.mem_cons.mp hs with rfl | hs
        · simp
        · have hlen : (m.drop n).length < m.length := by
            have h1 : m.length ≠ 0 := fun hz => h.2 (List.eq_nil_of_length_eq_zero hz)
            simp only [List.length_drop]; omega
          exact ih (m.drop n).length (hk ▸ hlen) (m.drop n) rfl s hs
  exact H l.length l rfl

/-- A payload of exactly 8192 bytes splits into exactly two 4096-chunks. -/
theorem chunks_two {α : Type} (l : List α) (h : l.length = 8192) :
    (chunks 4096 l).length = 2 := by
  have h1 : l ≠ [] := by intro hz; rw [hz] at h; simp at h
  have h2 : (l.drop 4096) ≠ [] := by
    intro hz
    have := congrArg List.length hz
    simp [List.length_drop, h] at this
  rw [chunks_cons 4096 (by omega) l h1, chunks_cons 4096 (by omega) _ h2]
  have h3 : (l.drop 4096).drop 4096 = [] := by
    rw [List.drop_drop]
    apply List.drop_eq_nil_of_le
    rw [h]
  rw [h3, chunks_nil]
  rfl

/-- Interface::write as a trace of SPI transfers: on Linux the payload is
split into 4096-byte chunks, each written as one transfer; elsewhere one
transfer carries the whole payload.  The chip-select toggles around the
transfer are commented out in the source and so are absent here. -/
def Interface.write (isLinux : Bool) (data : List Nat) : List Event :=
  if isLinux then (chunks 4096 data).map Event.spiWrite
  else [Event.spiWrite data]

/-- Interface::send_command_code: DC low, write the single opcode byte, DC
high. -/
def Interface.send_command_code (isLinux : Bool) (code : Nat) : List Event :=
  Event.dcLow :: (Interface.write isLinux [code] ++ [Event.dcHigh])

/-- Interface::send_data: DC high, then write the payload. -/
def Interface.send_data (isLinux : Bool) (data : List Nat) : List Event :=
  Event.dcHigh :: Interface.write isLinux data

/-- Interface::send_command: encode, send the opcode under send_command_code,
and send the argument bytes with send_data only when there are any. -/
def Interface.send_command (isLinux : Bool) (c : Command) (d : ComandData) :
    Except EncodeError (List Event) :=
  match Command.encode c d with
  | .error e => .error e
  | .ok (code, data) =>
      .ok (Interface.send_command_code isLinux code ++
        if data.length = 0 then [] else Interface.send_data isLinux data)

/-- Replay of a trace against the level of the DC pin: every SPI write is
recorded together with the DC level in force when it was issued (the first
argument is the level the pin starts at). -/
def writesWithDC : Bool → List Event → List (Bool × List Nat)
  | _, [] => []
  | _, Event.dcLow :: rest => writesWithDC false rest
  | _, Event.dcHigh :: rest => writesWithDC true rest
  | dc, Event.spiWrite bs :: rest => (dc, bs) :: writesWithDC dc rest

/-- Replaying a pure run of SPI writes with DC high records every segment as
written at the high level. -/
theorem writesWithDC_map_spiWrite (segs : List (List Nat)) :
    writesWithDC true (segs.map Event.spiWrite) = segs.map (fun s => (true, s)) := by
  induction segs with
  | nil => rfl
  | cons s rest ih => simp [writesWithDC, ih]

/-- A single opcode byte is one chunk. -/
theorem chunks_singleton {α : Type} (a : α) : chunks 4096 [a] = [[a]] := by
  rw [chunks_cons 4096 (by omega) [a] (by simp)]
  simp [chunks_nil]

/-- Interface::busy_wait condition: the match on busy.is_high() inside the
while condition, with Ok x giving x and any Err giving false. -/
def busyCond : Option Bool → Bool
  | some x => x
  | none => false

/-- Interface::busy_wait over a finite trace of samples of the busy line
(some b is Ok(b), none is a read error): returns the index of the sample at
which the spin loop exits, or none when every sample keeps it spinning. -/
def Interface.busy_wait : List (Option Bool) → Option Nat
  | [] => none
  | r :: rest =>
    if busyCond r then (Interface.busy_wait rest).map (fun n => n + 1)
    else some 0

/-- Rotation enum of the Display module. -/
inductive Rotation
  | Rotate0
  | Rotate90
  | Rotate180
  | Rotate270
deriving DecidableEq

/-- The Display configuration struct of the Display module. -/
structure Display where
  dummy_line_period : Nat
  gate_line_width : Nat
  write_vcom : Nat
  rotation : Rotation
  lut : Option (List Nat)
  rows : Nat
  cols : Nat
deriving DecidableEq

/-- MAX_GATES constant of the ssd1675 module. -/
def MAX_GATES : Nat := 296

/-- MAX_SOURCE_OUTPUTS constant of the ssd1675 module. -/
def MAX_SOURCE_OUTPUTS : Nat := 160

/-- MAX_DUMMY_LINE_PERIOD constant of the ssd1675 module (the source defines
it but never enforces it: the only use, a debug assert in the
DummyLinePeriod arm, is commented out). -/
def MAX_DUMMY_LINE_PERIOD : Nat := 127

/-- Modelled from the spec: Display::dimensions compares rows against a
constant ssd1675::MAX_GATE_OUTPUTS that no file of the repository defines;
the spec fixes the maximum gate count at 296, matching the source constant
MAX_GATES. -/
def MAX_GATE_OUTPUTS : Nat := 296

/-- A concrete Display value used to evaluate the setters (the source
declares no constructor for the struct). -/
def defaultDisplay : Display :=
  { dummy_line_period := 0, gate_line_width := 0, write_vcom := 0,
    rotation := Rotation.Rotate0, lut := none, rows := 0, cols := 0 }

/-- Display::dimensions: each assert of the source is modelled as an error
carrying the assert message; when every assert passes, rows and cols are
stored unchanged and the call returns Ok. -/
def Display.dimensions (d : Display) (rows cols : Nat) : Except String Display :=
  if ¬ cols % 8 = 0 then .error "columns must be evenly divisible by 8"
  else if ¬ rows ≤ MAX_GATE_OUTPUTS then .error "rows must be less than MAX_GATE_OUTPUTS"
  else if ¬ cols ≤ MAX_SOURCE_OUTPUTS then .error "cols must be less than MAX_SOURCE_OUTPUTS"
  else .ok { d with rows := rows, cols := cols }

/-- Display::vcom: stores the byte and returns Ok. -/
def Display.vcom (d : Display) (value : Nat) : Except String Display :=
  .ok { d with write_vcom := value }

/-- Display::lut (named lut_set here because the struct field is already
called lut): takes the configuration by value, installs the slice into the
field of that owned value, and returns unit, so the updated configuration
is dropped inside the call.  No length check of any kind is performed. -/
def Display.lut_set (d : Display) (l : List Nat) : Unit :=
  let _updated : Display := { d with lut := some l }
  ()

/-- C1: for every command carrying a u16 field (gate-scan-start-position,
driver-output-control gate count, Y-window start and end bounds), the
encoder emits the field's argument bytes low byte first; in particular
gate-scan-start-position 0x1234 encodes to argument bytes [0x34, 0x12]. -/
theorem u16_fields_low_byte_first :
    (∀ v, Command.encode .GateScanStartPostion (.gate_scan_start_position v) =
      .ok (0x0F, [v % 256, v % 65536 / 256]))
  ∧ (∀ g b, Command.encode .DriverOutputControl (.driver_output_control g b) =
      .ok (0x01, [g % 256, g % 65536 / 256, b % 256]))
  ∧ (∀ s e, Command.encode .StartEndYPosition (.start_end_y_position s e) =
      .ok (0x45, [s % 256, s % 65536 / 256, e % 256, e % 65536 / 256]))
  ∧ Command.encode .GateScanStartPostion (.gate_scan_start_position 0x1234) =
      .ok (0x0F, [0x34, 0x12]) := by
  have key : ∀ v : Nat, v % 65536 % 256 = v % 256 :=
    fun v => Nat.mod_mod_of_dvd v (by norm_num)
  refine ⟨fun v => ?_, fun g b => ?_, fun s e => ?_, by decide⟩ <;>
    simp [Command.encode, u16, u8, key]

/-- C3: the deep-sleep-mode command encodes Normal to 0b00, PreserveRAM to
0b01 and DiscardRAM to 0b11, and no DeepSleepMode input ever produces the
reserved bit pattern 0b10. -/
theorem deep_sleep_mode_encoding :
    Command.encode .DeepSleepMode (.deep_sleep_mode .Normal) = .ok (0x10, [0b00])
  ∧ Command.encode .DeepSleepMode (.deep_sleep_mode .PreserveRAM) = .ok (0x10, [0b01])
  ∧ Command.encode .DeepSleepMode (.deep_sleep_mode .DiscardRAM) = .ok (0x10, [0b11])
  ∧ ∀ m : DeepSleepMode,
      Command.encode .DeepSleepMode (.deep_sleep_mode m) = .ok (0x10, [m.bits])
      ∧ m.bits ≠ 0b10 := by
  refine ⟨by decide, by decide, by decide, fun m => ?_⟩
  cases m <;> exact ⟨rfl, by decide⟩

/-- C4: the data-entry-mode command encodes to a single byte equal to the
2-bit direction code ORed with the 1-bit axis flag (Horizontal 0b000,
Vertical 0b100); in particular (IncrementYIncrementX, Horizontal) encodes
to 0b011 and (DecrementXDecrementY, Vertical) encodes to 0b100. -/
theorem data_entry_mode_encoding :
    Command.encode .DataEntryMode (.data_entry_mode .IncrementYIncrementX .Horizontal) =
      .ok (0x11, [0b011])
  ∧ Command.encode .DataEntryMode (.data_entry_mode .DecrementXDecrementY .Vertical) =
      .ok (0x11, [0b100])
  ∧ ∀ (m : DataEntryMode) (a : IncrementAxis),
      Command.encode .DataEntryMode (.data_entry_mode m a) =
        .ok (0x11, [Nat.lor a.bits m.bits]) := by
  refine ⟨by decide, by decide, fun m a => ?_⟩
  cases m <;> cases a <;> rfl

/-- C5: every recognized but unimplemented command (the fall-through arm of
send_command) fails with the distinct unsupported condition, for any
argument data, and send_command returns that error with no event trace, so
no bytes are ever emitted on the bus. -/
theorem unsupported_command_distinct_failure (d : ComandData) :
    Command.encode .TemperatatSensorSelection d = .error .unsupported
  ∧ Command.encode .WriteTemperatureSensor d = .error .unsupported
  ∧ Command.encode .ReadTemperatureSensor d = .error .unsupported
  ∧ Command.encode .WriteExternalTemperatureSensor d = .error .unsupported
  ∧ Command.encode .UpdateDisplayOption1 d = .error .unsupported
  ∧ Command.encode .EnterVCOMSensing d = .error .unsupported
  ∧ Command.encode .VCOMSenseDuration d = .error .unsupported
  ∧ Command.encode .AutoWriteColorPattern d = .error .unsupported
  ∧ Command.encode .AutoWriteBlackPattern d = .error .unsupported
  ∧ Interface.send_command true .ReadTemperatureSensor d = .error .unsupported
  ∧ Interface.send_command true .WriteTemperatureSensor d = .error .unsupported
  ∧ Interface.send_command true .EnterVCOMSensing d = .error .unsupported
  ∧ Interface.send_command true .UpdateDisplayOption1 d = .error .unsupported
  ∧ Interface.send_command false .ReadTemperatureSensor d = .error .unsupported := by
  cases d <;>
    exact ⟨rfl, rfl, rfl, rfl, rfl, rfl, rfl, rfl, rfl, rfl, rfl, rfl, rfl, rfl⟩

/-- C6: on a Linux host a single bus write of any payload is split into
consecutive SPI segments of at most 4096 bytes whose in-order concatenation
is the original payload, and an 8192-byte payload is split into exactly two
segments. -/
theorem write_chunking (data big : List Nat) (h : big.length = 8192) :
    Interface.write true data = (chunks 4096 data).map Event.spiWrite
  ∧ (∀ s ∈ chunks 4096 data, s.length ≤ 4096)
  ∧ (chunks 4096 data).flatten = data
  ∧ (chunks 4096 big).length = 2
  ∧ (chunks 4096 big).flatten = big :=
  ⟨rfl, chunks_sizes 4096 data, chunks_flatten 4096 (by omega) data,
    chunks_two big h, chunks_flatten 4096 (by omega) big⟩

/-- C6 witness: the chunking facts at a 3-byte payload and at a concrete
8192-byte payload. -/
theorem write_chunking_witness :
    Interface.write true [1, 2, 3] = (chunks 4096 [1, 2, 3]).map Event.spiWrite
  ∧ (∀ s ∈ chunks 4096 [1, 2, 3], s.length ≤ 4096)
  ∧ (chunks 4096 [1, 2, 3]).flatten = [1, 2, 3]
  ∧ (chunks 4096 (List.replicate 8192 (0 : Nat))).length = 2
  ∧ (chunks 4096 (List.replicate 8192 (0 : Nat))).flatten = List.replicate 8192 (0 : Nat) :=
  write_chunking [1, 2, 3] (List.replicate 8192 (0 : Nat)) (List.length_replicate 8192 0)

/-- C2: for every implemented command, send_command first lowers DC, writes
the single opcode byte while DC is low, raises DC, and writes all argument
bytes while DC is high; for a zero-argument command the trace is exactly
the low to high opcode phase with no data write.  The writesWithDC replay
starting from any initial pin level records the opcode segment at the low
level and every argument segment at the high level, and the argument
segments concatenate back to the argument bytes. -/
theorem send_command_phase_order (c : Command) (d : ComandData) (code : Nat)
    (data : List Nat) (b : Bool) (h : Command.encode c d = .ok (code, data)) :
    Interface.send_command true c d =
      .ok (Event.dcLow :: Event.spiWrite [code] :: Event.dcHigh ::
        (if data = [] then []
         else Event.dcHigh :: (chunks 4096 data).map Event.spiWrite))
  ∧ writesWithDC b (Event.dcLow :: Event.spiWrite [code] :: Event.dcHigh ::
      (if data = [] then []
       else Event.dcHigh :: (chunks 4096 data).map Event.spiWrite)) =
      (false, [code]) :: (chunks 4096 data).map (fun s => (true, s))
  ∧ (chunks 4096 data).flatten = data := by
  refine ⟨?_, ?_, chunks_flatten 4096 (by omega) data⟩
  · unfold Interface.send_command
    rw [h]
    unfold Interface.send_command_code Interface.send_data Interface.write
    by_cases hd : data = []
    · subst hd
      simp [chunks_singleton]
    · have : data.length ≠ 0 := fun hz => hd (List.eq_nil_of_length_eq_zero hz)
      simp [chunks_singleton, hd, this]
  · by_cases hd : data = []
    · subst hd
      simp [writesWithDC, chunks_nil]
    · simp only [hd, if_false]
      simp [writesWithDC, writesWithDC_map_spiWrite]

/-- C2 witness: the phase trace of the gate-scan-start-position command at
position 0x1234, whose two argument bytes make one chunk. -/
theorem send_command_phase_order_witness :
    Interface.send_command true Command.GateScanStartPostion
        (ComandData.gate_scan_start_position 0x1234) =
      .ok (Event.dcLow :: Event.spiWrite [0x0F] :: Event.dcHigh ::
        (if ([0x34, 0x12] : List Nat) = [] then []
         else Event.dcHigh :: (chunks 4096 [0x34, 0x12]).map Event.spiWrite))
  ∧ writesWithDC true (Event.dcLow :: Event.spiWrite [0x0F] :: Event.dcHigh ::
      (if ([0x34, 0x12] : List Nat) = [] then []
       else Event.dcHigh :: (chunks 4096 [0x34, 0x12]).map Event.spiWrite)) =
      (false, [0x0F]) :: (chunks 4096 [0x34, 0x12]).map (fun s => (true, s))
  ∧ (chunks 4096 ([0x34, 0x12] : List Nat)).flatten = [0x34, 0x12] :=
  send_command_phase_order Command.GateScanStartPostion
    (ComandData.gate_scan_start_position 0x1234) 0x0F [0x34, 0x12] true (by decide)

/-- C9: busy_wait spins exactly while the busy line samples as Ok(true): it
exits at the first sample that is not Ok(true), exits at index 0 when the
initial sample is already low, and a read error terminates the wait like a
low reading instead of being propagated (the loop has no error outcome at
all). -/
theorem busy_wait_spec (rs : List (Option Bool)) (i : Nat)
    (h : Interface.busy_wait rs = some i) :
    ((rs.take i).all busyCond = true)
  ∧ busyCond (rs.getD i (some false)) = false
  ∧ i < rs.length
  ∧ Interface.busy_wait (some false :: rs) = some 0
  ∧ Interface.busy_wait (none :: rs) = some 0 := by
  have main : ∀ (m : List (Option Bool)) (j : Nat), Interface.busy_wait m = some j →
      ((m.take j).all busyCond = true)
    ∧ busyCond (m.getD j (some false)) = false
    ∧ j < m.length := by
    intro m
    induction m with
    | nil => intro j hj; simp [Interface.busy_wait] at hj
    | cons r rest ih =>
      intro j hj
      by_cases hc : busyCond r = true
      · simp only [Interface.busy_wait, hc, if_true] at hj
        rcases Option.map_eq_some'.mp hj with ⟨k, hk, rfl⟩
        obtain ⟨ha, hb, hlen⟩ := ih k hk
        refine ⟨?_, ?_, ?_⟩
        · simp [List.take_succ_cons, List.all_cons, hc, ha]
        · simpa [List.getD_cons_succ] using hb
        · simp [List.length_cons]; omega
      · have hc2 : busyCond r = false := by revert hc; cases busyCond r <;> simp
        simp only [Interface.busy_wait, hc2, if_false, Bool.false_eq_true] at hj
        have hj0 : j = 0 := by cases hj; rfl
        subst hj0
        exact ⟨by simp, by simpa [List.getD_cons_zero] using hc2, by simp⟩
  obtain ⟨a, b, c⟩ := main rs i h
  exact ⟨a, b, c, rfl, rfl⟩

/-- C9 witness: on the sample trace [Ok(true), Err], the wait spins past the
busy sample and exits at the error sample. -/
theorem busy_wait_spec_witness :
    ((([some true, none] : List (Option Bool)).take 1).all busyCond = true)
  ∧ busyCond (([some true, none] : List (Option Bool)).getD 1 (some false)) = false
  ∧ 1 < ([some true, none] : List (Option Bool)).length
  ∧ Interface.busy_wait (some false :: ([some true, none] : List (Option Bool))) = some 0
  ∧ Interface.busy_wait (none :: ([some true, none] : List (Option Bool))) = some 0 :=
  busy_wait_spec [some true, none] 1 (by decide)

/-- C7 (amended): Display::dimensions succeeds exactly when cols is a
multiple of 8 (zero included), rows is at most 296 and cols is at most 160,
storing rows and cols unchanged on success (no clamp); rows 300 fails,
cols 121 fails, and rows 296 with cols 160 succeeds. -/
theorem dimensions_validation (d : Display) (rows cols rows2 cols2 : Nat)
    (h1 : cols2 % 8 = 0) (h2 : rows2 ≤ 296) (h3 : cols2 ≤ 160) :
    (Display.dimensions d rows cols).isOk =
      (decide (cols % 8 = 0) && decide (rows ≤ 296) && decide (cols ≤ 160))
  ∧ Display.dimensions d rows2 cols2 = .ok { d with rows := rows2, cols := cols2 }
  ∧ (Display.dimensions d 300 8).isOk = false
  ∧ (Display.dimensions d 296 121).isOk = false
  ∧ (Display.dimensions d 296 160).isOk = true := by
  refine ⟨?_, ?_, rfl, rfl, rfl⟩
  · by_cases hc : cols % 8 = 0 <;> by_cases hr : rows ≤ 296 <;> by_cases ho : cols ≤ 160 <;>
      simp [Display.dimensions, MAX_GATE_OUTPUTS, MAX_SOURCE_OUTPUTS, hc, hr, ho,
        Except.isOk, Except.toBool]
  · simp [Display.dimensions, MAX_GATE_OUTPUTS, MAX_SOURCE_OUTPUTS, h1, h2, h3]

/-- C7 witness: the validation facts evaluated at the default configuration
with the successful pair rows 296, cols 160. -/
theorem dimensions_validation_witness :
    (Display.dimensions defaultDisplay 0 0).isOk =
      (decide ((0 : Nat) % 8 = 0) && decide ((0 : Nat) ≤ 296) && decide ((0 : Nat) ≤ 160))
  ∧ Display.dimensions defaultDisplay 296 160 =
      .ok { defaultDisplay with rows := 296, cols := 160 }
  ∧ (Display.dimensions defaultDisplay 300 8).isOk = false
  ∧ (Display.dimensions defaultDisplay 296 121).isOk = false
  ∧ (Display.dimensions defaultDisplay 296 160).isOk = true :=
  dimensions_validation defaultDisplay 0 0 296 160 (by decide) (by decide) (by decide)

/-- C7 counterexample: cols 0 is not a positive multiple of 8 (0 % 8 = 0
holds but 0 is not positive), yet dimensions accepts it and stores it, so
the claim that dimensions fails whenever cols is not a positive multiple of
8 is false at cols = 0. -/
theorem dimensions_accepts_zero_cols :
    Display.dimensions defaultDisplay 296 0 =
      .ok { defaultDisplay with rows := 296, cols := 0 }
  ∧ (0 : Nat) % 8 = 0
  ∧ ¬ 0 < (0 : Nat) := by
  exact ⟨rfl, rfl, by decide⟩

/-- C8: the code evaluated at the failing input of the claim: a 69-byte LUT
is accepted by the lut setter, which returns unit with no error outcome (it
performs no length check, and no dummy-line-period check exists anywhere in
the Display module). -/
theorem lut_setter_accepts_69_bytes :
    Display.lut_set defaultDisplay (List.replicate 69 0) = ()
  ∧ (List.replicate 69 (0 : Nat)).length ≠ 70 :=
  ⟨rfl, by decide⟩

/-- C10: the lut setter consumes the configuration by value and returns
unit, so the value a caller observes after the call is the same whatever
slice was installed: no configuration reflecting the new LUT ever reaches
the caller. -/
theorem lut_setter_result_unobservable (d : Display) (l1 l2 : List Nat) :
    Display.lut_set d l1 = Display.lut_set d l2
  ∧ Display.lut_set d l1 = () :=
  ⟨rfl, rfl⟩
